import Mathlib

/-!
Shallow embedding of the RTP receiver state machine implemented in
src/modules/rtp_rtcp/source/rtp_receiver.cc (class RTPReceiver), together
with proofs about its statistics, ordering, identity-change, CSRC and RTX
logic.

Modelling conventions:
* Machine integers are modelled as Nat (unsigned members) or Int (signed
  members), with explicit reduction modulo 2^16 or 2^32 at the points where
  the C++ arithmetic wraps or converts.
* External collaborators (the clock, the payload registry, the media
  strategy, the RTCP module) are modelled as oracle inputs: every value the
  receiver obtains from them during one call is a parameter of the embedded
  function.  The receiver never inspects those collaborators in any other
  way, so this is an exact account of the data flow into the class.
* Host callbacks are modelled as an emitted event list; the source fires
  them after releasing the lock, which corresponds to the event list being
  produced next to the final state of each embedded call.
-/

namespace WebRtc

/-- Wrap an integer to an unsigned 32-bit value (the value of a UWord32). -/
def mod32 (x : Int) : Nat := (x.emod 4294967296).toNat

/-- Wrap an integer to an unsigned 16-bit value (the value of a UWord16). -/
def mod16 (x : Int) : Nat := (x.emod 65536).toNat

/-- Reinterpret an unsigned 32-bit value as a signed 32-bit value (the
conversion from UWord32 arithmetic to a Word32 lvalue). -/
def toS32 (n : Nat) : Int :=
  if n < 2147483648 then (n : Int) else (n : Int) - 4294967296

/-- NACK configuration, enum NACKMethod of the source. -/
inductive NACKMethod where
  | kNackOff
  | kNackRtcp
deriving DecidableEq, Repr

/-- Parsed RTP header handed to RTPReceiver::IncomingRTPPacket.  This
flattens WebRtcRTPHeader: the RTPHeader part (ssrc, sequenceNumber,
timestamp, payloadType, headerLength, paddingLength, numCSRCs with
arrOfCSRCs), the extension part (transmissionTimeOffset) and the audio
part (numEnergy with arrOfEnergy).  The CSRC count (a 4-bit wire field,
at most 15 entries) is carried as the length of arrOfCSRCs. -/
structure RtpHeader where
  ssrc : Nat
  sequenceNumber : Nat
  timestamp : Nat
  payloadType : Nat
  headerLength : Nat
  paddingLength : Nat
  arrOfCSRCs : List Nat
  transmissionTimeOffset : Int
  numEnergy : Nat
  arrOfEnergy : List Nat
deriving DecidableEq, Repr

/-- The member variables of class RTPReceiver that the verified code paths
read or write, in the declaration order of the constructor initializer
list.  The pair num_csrcs_/current_remote_csrc_ is carried as a single
list whose length is num_csrcs_ (only the first num_csrcs_ array slots are
ever read by the source). -/
structure RTPReceiverState where
  last_receive_time : Int
  last_received_payload_length : Nat
  packet_timeout_ms : Nat
  ssrc : Nat
  current_remote_csrc : List Nat
  num_energy : Nat
  current_remote_energy : List Nat
  use_ssrc_filter : Bool
  ssrc_filter : Nat
  jitter_q4 : Nat
  jitter_max_q4 : Nat
  cumulative_loss : Nat
  jitter_q4_transmission_time_offset : Nat
  local_time_last_received_timestamp : Nat
  last_received_frame_time_ms : Int
  last_received_timestamp : Nat
  last_received_sequence_number : Nat
  last_received_transmission_time_offset : Int
  received_seq_first : Nat
  received_seq_max : Nat
  received_seq_wraps : Nat
  received_packet_oh : Nat
  received_byte_count : Nat
  received_old_packet_count : Nat
  received_inorder_packet_count : Nat
  last_report_inorder_packets : Nat
  last_report_old_packets : Nat
  last_report_seq_max : Nat
  last_report_fraction_lost : Nat
  last_report_cumulative_lost : Nat
  last_report_extended_high_seq_num : Nat
  last_report_jitter : Nat
  last_report_jitter_transmission_time_offset : Nat
  nack_method : NACKMethod
  max_reordering_threshold : Nat
  rtx : Bool
  ssrc_rtx : Nat
deriving DecidableEq, Repr

/-- The state set up by the RTPReceiver constructor. -/
def initState : RTPReceiverState where
  last_receive_time := 0
  last_received_payload_length := 0
  packet_timeout_ms := 0
  ssrc := 0
  current_remote_csrc := []
  num_energy := 0
  current_remote_energy := List.replicate 15 0
  use_ssrc_filter := false
  ssrc_filter := 0
  jitter_q4 := 0
  jitter_max_q4 := 0
  cumulative_loss := 0
  jitter_q4_transmission_time_offset := 0
  local_time_last_received_timestamp := 0
  last_received_frame_time_ms := 0
  last_received_timestamp := 0
  last_received_sequence_number := 0
  last_received_transmission_time_offset := 0
  received_seq_first := 0
  received_seq_max := 0
  received_seq_wraps := 0
  received_packet_oh := 12
  received_byte_count := 0
  received_old_packet_count := 0
  received_inorder_packet_count := 0
  last_report_inorder_packets := 0
  last_report_old_packets := 0
  last_report_seq_max := 0
  last_report_fraction_lost := 0
  last_report_cumulative_lost := 0
  last_report_extended_high_seq_num := 0
  last_report_jitter := 0
  last_report_jitter_transmission_time_offset := 0
  nack_method := NACKMethod.kNackOff
  max_reordering_threshold := 50
  rtx := false
  ssrc_rtx := 0

/-- Host callbacks fired by the receiver (RtpFeedback and the RTCP module),
listed in the order the source can emit them. -/
inductive Event where
  | setRemoteSSRC (ssrc : Nat)
  | onIncomingSSRCChanged (ssrc : Nat)
  | onInitializeDecoder (payloadType : Nat)
  | onIncomingCSRCChanged (csrc : Nat) (added : Bool)
deriving DecidableEq, Repr

/-- RTPReceiver::ResetStatistics.  The source additionally returns 0, which
carries no information. -/
def ResetStatistics (s : RTPReceiverState) : RTPReceiverState :=
  { s with
    last_report_inorder_packets := 0
    last_report_old_packets := 0
    last_report_seq_max := 0
    last_report_fraction_lost := 0
    last_report_cumulative_lost := 0
    last_report_extended_high_seq_num := 0
    last_report_jitter := 0
    last_report_jitter_transmission_time_offset := 0
    jitter_q4 := 0
    jitter_max_q4 := 0
    cumulative_loss := 0
    jitter_q4_transmission_time_offset := 0
    received_seq_wraps := 0
    received_seq_max := 0
    received_seq_first := 0
    received_byte_count := 0
    received_old_packet_count := 0
    received_inorder_packet_count := 0 }

/-- RTPReceiver::ResetDataCounters. -/
def ResetDataCounters (s : RTPReceiverState) : RTPReceiverState :=
  { s with
    received_byte_count := 0
    received_old_packet_count := 0
    received_inorder_packet_count := 0
    last_report_inorder_packets := 0 }

/-- RTPReceiver::SetPacketTimeout. -/
def SetPacketTimeout (s : RTPReceiverState) (timeoutMs : Nat) : RTPReceiverState :=
  { s with packet_timeout_ms := timeoutMs }

/-- RTPReceiver::SetNACKStatus; a negative reordering threshold is rejected
with -1 and no state change. -/
def SetNACKStatus (s : RTPReceiverState) (method : NACKMethod)
    (maxReorderingThreshold : Int) : RTPReceiverState × Int :=
  if maxReorderingThreshold < 0 then (s, -1)
  else if method = NACKMethod.kNackRtcp then
    ({ s with max_reordering_threshold := maxReorderingThreshold.toNat,
              nack_method := method }, 0)
  else
    ({ s with max_reordering_threshold := 50, nack_method := method }, 0)

/-- RTPReceiver::SetRTXStatus. -/
def SetRTXStatus (s : RTPReceiverState) (enable : Bool) (ssrc : Nat) :
    RTPReceiverState :=
  { s with rtx := enable, ssrc_rtx := ssrc }

/-- RTPReceiver::SetSSRCFilter. -/
def SetSSRCFilter (s : RTPReceiverState) (enable : Bool) (allowedSsrc : Nat) :
    RTPReceiverState :=
  { s with use_ssrc_filter := enable,
           ssrc_filter := if enable then allowedSsrc else 0 }

/-- RTPReceiver::PacketTimeout.  The returned Bool reports whether the
OnPacketTimeout callback fires (after the lock is dropped).  The call into
the payload registry (ResetLastReceivedPayloadTypes) mutates only external
registry state and is therefore not part of the receiver state. -/
def PacketTimeout (s : RTPReceiverState) (now : Int) : RTPReceiverState × Bool :=
  if s.packet_timeout_ms = 0 then (s, false)
  else if s.last_receive_time = 0 then (s, false)
  else if now - s.last_receive_time > (s.packet_timeout_ms : Int) then
    ({ s with last_receive_time := 0 }, true)
  else (s, false)

/-- RTPReceiver::InOrderPacket.  The subtraction of the reordering
threshold from the 16-bit maximum is done in int, hence the casts. -/
def InOrderPacket (s : RTPReceiverState) (sequenceNumber : Nat) : Bool :=
  if s.received_seq_max ≥ sequenceNumber then
    if ¬ (s.received_seq_max > 0xff00 ∧ sequenceNumber < 0x0ff) then
      if (s.received_seq_max : Int) - (s.max_reordering_threshold : Int) >
          (sequenceNumber : Int) then
        true
      else
        false
    else
      true
  else
    if sequenceNumber > 0xff00 ∧ s.received_seq_max < 0x0ff then
      if (s.received_seq_max : Int) - (s.max_reordering_threshold : Int) >
          (sequenceNumber : Int) then
        true
      else
        false
    else
      true

/-- RTPReceiver::RetransmitOfOldPacket.  now is the clock reading and
minRtt the RTT answer of the RTCP module.  When minRtt is 0 the source
derives max_delay_ms from a floating-point square root of the Q4 jitter;
floating point has no shallow embedding, so that computed value arrives as
the oracle input floatMaxDelayMs, and the clamp of the result to a minimum
of 1 ms is kept from the source.  The timestamp difference is divided as
unsigned 32-bit (the int operand converts to the unsigned divisor type)
and then stored into a signed 32-bit variable. -/
def RetransmitOfOldPacket (s : RTPReceiverState) (now : Int)
    (frequencyHz : Nat) (minRtt : Nat) (floatMaxDelayMs : Int)
    (sequenceNumber timestamp : Nat) : Bool :=
  if InOrderPacket s sequenceNumber then false
  else
    let frequencyKhz : Nat := frequencyHz / 1000
    let timeDiffMs : Int := now - s.last_receive_time
    let rtpTimeStampDiffMs : Int :=
      toS32 ((mod32 ((timestamp : Int) - (s.last_received_timestamp : Int))) /
        frequencyKhz)
    let maxDelayMs : Int :=
      if minRtt = 0 then
        (if floatMaxDelayMs = 0 then 1 else floatMaxDelayMs)
      else ((minRtt : Int) / 3) + 1
    decide (timeDiffMs > rtpTimeStampDiffMs + maxDelayMs)

/-- The interarrival difference in samples fed to the jitter estimator:
32-bit unsigned arithmetic on the two clock readings and the two RTP
timestamps, reinterpreted as signed 32-bit and passed through abs. -/
def TimeDiffSamples (rtpTime localTimeLast ts lastTs : Nat) : Nat :=
  (toS32 (mod32 (((rtpTime : Int) - (localTimeLast : Int)) -
    ((ts : Int) - (lastTs : Int))))).natAbs

/-- The transmission-time-offset corrected interarrival difference (RFC
5450): both timestamps are first shifted by their signed offsets. -/
def TimeDiffSamplesExt (rtpTime localTimeLast ts lastTs : Nat)
    (tto lastTto : Int) : Nat :=
  (toS32 (mod32 (((rtpTime : Int) - (localTimeLast : Int)) -
    (((ts : Int) + tto) - ((lastTs : Int) + lastTto))))).natAbs

/-- One guarded Q4 jitter step of UpdateStatistics: skip when the sample
difference reaches 450000, otherwise add ((d << 4) - jitter + 8) >> 4
with the shift arithmetic (floor division by 16) and 32-bit wrapping. -/
def JitterUpdate (jitterQ4 timeDiffSamples : Nat) : Nat :=
  if timeDiffSamples < 450000 then
    mod32 ((jitterQ4 : Int) +
      Int.fdiv (toS32 (mod32 ((timeDiffSamples : Int) * 16 - (jitterQ4 : Int))) + 8) 16)
  else jitterQ4

/-- The jitter block of UpdateStatistics: entered for a packet with a new
RTP timestamp that is not the first in-order packet, it applies the
guarded Q4 step to jitter_q4 with the plain difference and to
jitter_q4_transmission_time_offset with the offset-corrected difference.
The in-order count has already been incremented when this block runs. -/
def UpdateStatisticsJitter (s : RTPReceiverState) (h : RtpHeader)
    (rtpTime : Nat) : RTPReceiverState :=
  if h.timestamp ≠ s.last_received_timestamp ∧
      s.received_inorder_packet_count > 1 then
    { s with
        jitter_q4 := JitterUpdate s.jitter_q4
          (TimeDiffSamples rtpTime s.local_time_last_received_timestamp
            h.timestamp s.last_received_timestamp)
        jitter_q4_transmission_time_offset :=
          JitterUpdate s.jitter_q4_transmission_time_offset
            (TimeDiffSamplesExt rtpTime s.local_time_last_received_timestamp
              h.timestamp s.last_received_timestamp
              h.transmissionTimeOffset s.last_received_transmission_time_offset) }
  else s

/-- The in-order branch of UpdateStatistics: bump the in-order count,
count a wrap when the int difference to the old maximum is negative,
advance the maximum, run the jitter block, and latch the sample clock. -/
def UpdateStatisticsInOrder (s : RTPReceiverState) (h : RtpHeader)
    (rtpTime : Nat) : RTPReceiverState :=
  let s := { s with received_inorder_packet_count :=
                      (s.received_inorder_packet_count + 1) % 4294967296 }
  let seqDiff : Int := (h.sequenceNumber : Int) - (s.received_seq_max : Int)
  let s :=
    if seqDiff < 0 then
      { s with received_seq_wraps := (s.received_seq_wraps + 1) % 4294967296 }
    else s
  let s := { s with received_seq_max := h.sequenceNumber }
  let s := UpdateStatisticsJitter s h rtpTime
  { s with local_time_last_received_timestamp := rtpTime }

/-- RTPReceiver::UpdateStatistics.  rtpTime is the sample-clock reading
GetCurrentRTP(clock, frequency) of the one point where the function
samples the clock.  The Bitrate::Update tick mutates only the bitrate
meter (an external base-class accumulator) and is not receiver state.
After the byte count accumulates, the bootstrap branch fires whenever
received_seq_max and received_seq_wraps are both 0 and returns before the
packet-overhead filter; otherwise the in-order or the out-of-order branch
runs and the overhead filter of RFC 5104 closes the call. -/
def UpdateStatistics (s : RTPReceiverState) (h : RtpHeader) (bytes : Nat)
    (oldPacket : Bool) (rtpTime : Nat) : RTPReceiverState :=
  let s0 := { s with received_byte_count := (s.received_byte_count + bytes) % 4294967296 }
  if s.received_seq_max = 0 ∧ s.received_seq_wraps = 0 then
    { s0 with received_seq_first := h.sequenceNumber
              received_seq_max := h.sequenceNumber
              received_inorder_packet_count := 1
              local_time_last_received_timestamp := rtpTime }
  else
    let s1 :=
      if InOrderPacket s h.sequenceNumber then
        UpdateStatisticsInOrder s0 h rtpTime
      else
        if oldPacket then
          { s0 with received_old_packet_count :=
                      (s.received_old_packet_count + 1) % 4294967296 }
        else
          { s0 with received_inorder_packet_count :=
                      (s.received_inorder_packet_count + 1) % 4294967296 }
    let packetOh : Nat := h.headerLength + h.paddingLength
    { s1 with received_packet_oh := ((15 * s.received_packet_oh + packetOh) / 16) % 65536 }

/-- RTPReceiver::CheckSSRCChanged.  lastReceivedPayloadType is the payload
registry answer last_received_payload_type() (-1 when no payload type was
ever bound) and payloadLookupOk tells whether PayloadTypeToPayload
succeeds for the incoming payload type; both live in the external
registry.  The returned events are fired after the lock is released; the
decoder descriptor read out of the registry on the re-initialize path
(name, frequency, channels, rate) is external data and the event carries
the payload type that selects it. -/
def CheckSSRCChanged (s : RTPReceiverState) (hdrSsrc hdrPayloadType : Nat)
    (lastReceivedPayloadType : Int) (payloadLookupOk : Bool) :
    RTPReceiverState × List Event :=
  if s.ssrc ≠ hdrSsrc ∨ (lastReceivedPayloadType = -1 ∧ s.ssrc = 0) then
    let s1 := ResetStatistics s
    let s1 := { s1 with
      last_received_timestamp := 0
      last_received_sequence_number := 0
      last_received_transmission_time_offset := 0
      last_received_frame_time_ms := 0 }
    if s.ssrc ≠ 0 ∧ (hdrPayloadType : Int) = lastReceivedPayloadType then
      if payloadLookupOk = false then
        (s1, [])
      else
        ({ s1 with ssrc := hdrSsrc },
         [Event.setRemoteSSRC hdrSsrc, Event.onIncomingSSRCChanged hdrSsrc,
          Event.onInitializeDecoder hdrPayloadType])
    else
      ({ s1 with ssrc := hdrSsrc },
       [Event.setRemoteSSRC hdrSsrc, Event.onIncomingSSRCChanged hdrSsrc])
  else
    (s, [])

/-- RTPReceiver::CheckCSRC.  shouldReportCsrcChanges is the media strategy
answer ShouldReportCsrcChanges(payload_type).  The header CSRC count (a
4-bit wire field, at most 15) is the length of csrcs; numEnergy and
energies are the audio part of the header.  Events are the
OnIncomingCSRCChanged callbacks in emission order: first the additions
(scanning the new list), then the removals (scanning the old list), and
the csrc = 0 sentinel when the count changed without any per-CSRC
callback. -/
def CheckCSRC (s : RTPReceiverState) (csrcs : List Nat) (numEnergy : Nat)
    (energies : List Nat) (shouldReportCsrcChanges : Bool) :
    RTPReceiverState × List Event :=
  if shouldReportCsrcChanges = false then (s, [])
  else
    let s := { s with
      num_energy := numEnergy
      current_remote_energy :=
        if 0 < numEnergy ∧ numEnergy ≤ 15 then
          energies.take numEnergy ++ s.current_remote_energy.drop numEnergy
        else s.current_remote_energy }
    let oldCsrcs := s.current_remote_csrc
    if csrcs.length = 0 ∧ oldCsrcs.length = 0 then (s, [])
    else
      let s := { s with current_remote_csrc := csrcs }
      let addedEvents :=
        (csrcs.filter (fun c => (!(oldCsrcs.contains c)) && (c != 0))).map
          (fun c => Event.onIncomingCSRCChanged c true)
      let removedEvents :=
        (oldCsrcs.filter (fun c => (!(csrcs.contains c)) && (c != 0))).map
          (fun c => Event.onIncomingCSRCChanged c false)
      let events :=
        if addedEvents ++ removedEvents = [] then
          if csrcs.length > oldCsrcs.length then
            [Event.onIncomingCSRCChanged 0 true]
          else if csrcs.length < oldCsrcs.length then
            [Event.onIncomingCSRCChanged 0 false]
          else []
        else addedEvents ++ removedEvents
      (s, events)

/-- The RTPReceiver destructor: it emits a removal callback for each of the
first num_csrcs_ entries of current_remote_csrc_. -/
def DestructorEvents (s : RTPReceiverState) : List Event :=
  s.current_remote_csrc.map (fun c => Event.onIncomingCSRCChanged c false)

/-- RTPReceiver::Energy.  The caller passes a 15-slot array; the source
returns num_energy_ but, when num_energy_ is positive, memcpy copies
num_csrcs_ bytes of current_remote_energy_ into the caller array (the
count mismatch is the subject of claim C10). -/
def Energy (s : RTPReceiverState) (arrayOfEnergy : List Nat) : List Nat × Nat :=
  if s.num_energy > 0 then
    (s.current_remote_energy.take s.current_remote_csrc.length ++
       arrayOfEnergy.drop s.current_remote_csrc.length,
     s.num_energy)
  else (arrayOfEnergy, s.num_energy)

/-- Outputs of RTPReceiver::Statistics: the six values written through the
out parameters in both the reset and the no-reset branch.  The seventh out
parameter missing is written only on the reset path and is exposed by the
helper missingFn below. -/
structure Report where
  fractionLost : Nat
  cumulativeLost : Nat
  extendedMax : Nat
  jitter : Nat
  maxJitter : Nat
  jitterTransmissionTimeOffset : Nat
deriving DecidableEq, Repr

/-- Lines 1036-1039 of the source: on the first report
(last_report_inorder_packets_ == 0) last_report_seq_max_ is first set to
received_seq_first_ - 1 in unsigned 16-bit arithmetic. -/
def lastReportSeqMaxInit (s : RTPReceiverState) : Nat :=
  if s.last_report_inorder_packets = 0 then
    mod16 ((s.received_seq_first : Int) - 1)
  else s.last_report_seq_max

/-- Lines 1041-1046 of the source: exp_since_last is the unsigned 16-bit
difference received_seq_max_ - last_report_seq_max_, overwritten with 0
when last_report_seq_max_ is numerically greater than received_seq_max_. -/
def expSinceLastFn (s : RTPReceiverState) : Nat :=
  let l := lastReportSeqMaxInit s
  let e := mod16 ((s.received_seq_max : Int) - (l : Int))
  if l > s.received_seq_max then 0 else e

/-- Lines 1050-1068 of the source: packets received since the last report;
with NACK off the old (re-ordered) packets are added. -/
def recSinceLastFn (s : RTPReceiverState) : Nat :=
  let r := mod32 ((s.received_inorder_packet_count : Int) -
    (s.last_report_inorder_packets : Int))
  if s.nack_method = NACKMethod.kNackOff then
    (r + mod32 ((s.received_old_packet_count : Int) -
      (s.last_report_old_packets : Int))) % 4294967296
  else r

/-- Lines 1070-1073 of the source: the missing count for the report. -/
def missingFn (s : RTPReceiverState) : Nat :=
  if expSinceLastFn s > recSinceLastFn s then expSinceLastFn s - recSinceLastFn s
  else 0

/-- Lines 1074-1078 of the source: the fraction-lost byte. -/
def fractionLostFn (s : RTPReceiverState) : Nat :=
  if expSinceLastFn s ≠ 0 then (255 * missingFn s) / expSinceLastFn s else 0

/-- RTPReceiver::Statistics (the eight-argument overload; the public
seven-argument one only adds a scratch missing slot).  Returns the new
state paired with none where the source returns -1 (nothing received yet,
or no report available with reset = false) and with the written outputs
where it returns 0. -/
def Statistics (s : RTPReceiverState) (reset : Bool) :
    RTPReceiverState × Option Report :=
  if s.received_seq_first = 0 ∧ s.received_byte_count = 0 then (s, none)
  else if !reset then
    if s.last_report_inorder_packets = 0 then (s, none)
    else
      (s, some
        { fractionLost := s.last_report_fraction_lost
          cumulativeLost := s.last_report_cumulative_lost
          extendedMax := s.last_report_extended_high_seq_num
          jitter := s.last_report_jitter
          maxJitter := s.jitter_max_q4 / 16
          jitterTransmissionTimeOffset :=
            s.last_report_jitter_transmission_time_offset })
  else
    let localFractionLost := fractionLostFn s
    let cumulativeLoss := (s.cumulative_loss + missingFn s) % 4294967296
    let jitterMaxQ4 :=
      if s.jitter_q4 > s.jitter_max_q4 then s.jitter_q4 else s.jitter_max_q4
    let extendedMax := (s.received_seq_wraps * 65536 % 4294967296 +
      s.received_seq_max) % 4294967296
    ({ s with
        cumulative_loss := cumulativeLoss
        jitter_max_q4 := jitterMaxQ4
        last_report_fraction_lost := localFractionLost
        last_report_cumulative_lost := cumulativeLoss
        last_report_extended_high_seq_num := extendedMax
        last_report_jitter := s.jitter_q4 / 16
        last_report_jitter_transmission_time_offset :=
          s.jitter_q4_transmission_time_offset / 16
        last_report_inorder_packets := s.received_inorder_packet_count
        last_report_old_packets := s.received_old_packet_count
        last_report_seq_max := s.received_seq_max },
     some
       { fractionLost := localFractionLost
         cumulativeLost := cumulativeLoss
         extendedMax := extendedMax
         jitter := s.jitter_q4 / 16
         maxJitter := jitterMaxQ4 / 16
         jitterTransmissionTimeOffset := s.jitter_q4_transmission_time_offset / 16 })

/-- Modelled from the spec: ModuleRTPUtility::GetPayloadDataLength is not
among the sources under verification; section 4.1 of the spec defines the
payload body length as packet_length - padding_length - header_length,
carried as an unsigned 16-bit quantity. -/
def GetPayloadDataLength (h : RtpHeader) (packetLength : Nat) : Nat :=
  mod16 ((packetLength : Int) - (h.headerLength : Int) - (h.paddingLength : Int))

/-- Everything one IncomingRTPPacket call obtains from the external
collaborators: the millisecond clock, the sample clock, the media
strategy, the payload registry and the RTCP module.  CheckPayloadChanged
is dominated by registry and media-strategy state, so its observable
effect on the receiver is its return code and whether it called
ResetStatistics on the way. -/
structure Oracle where
  now : Int
  rtpTime : Nat
  frequencyHz : Nat
  minRtt : Nat
  floatMaxDelayMs : Int
  lastReceivedPayloadType : Int
  payloadLookupOk : Bool
  payloadChangedShouldResetStatistics : Bool
  checkPayloadChangedResult : Int
  shouldReportCsrcChanges : Bool
  parseRtpPacketResult : Int
deriving Repr

/-- The part of RTPReceiver::IncomingRTPPacket that follows the RTX
unwrap.  The header is no longer written after that point, so this tail
returns only the result code and the new state: the SSRC filter,
SSRC-change detection, payload change (as oracled), CSRC bookkeeping, the
media-strategy parse, and the statistics update followed by the
last-received bookkeeping, in the source order. -/
def IncomingRTPPacketTail (s : RTPReceiverState) (h : RtpHeader)
    (packetLength : Nat) (o : Oracle) : Int × RTPReceiverState :=
  let length : Int := (packetLength : Int) - (h.paddingLength : Int)
  if s.use_ssrc_filter ∧ h.ssrc ≠ s.ssrc_filter then (-1, s)
  else
    let s := (CheckSSRCChanged s h.ssrc h.payloadType
      o.lastReceivedPayloadType o.payloadLookupOk).1
    let s := if o.payloadChangedShouldResetStatistics then ResetStatistics s
      else s
    if o.checkPayloadChangedResult < 0 then
      if length - (h.headerLength : Int) = 0 then (0, s) else (-1, s)
    else
      let s := (CheckCSRC s h.arrOfCSRCs h.numEnergy h.arrOfEnergy
        o.shouldReportCsrcChanges).1
      let payloadDataLength := GetPayloadDataLength h packetLength
      if o.parseRtpPacketResult < 0 then (o.parseRtpPacketResult, s)
      else
        let oldPacket := RetransmitOfOldPacket s o.now o.frequencyHz
          o.minRtt o.floatMaxDelayMs h.sequenceNumber h.timestamp
        let s := UpdateStatistics s h payloadDataLength oldPacket o.rtpTime
        let s := { s with last_receive_time := o.now,
                          last_received_payload_length := payloadDataLength }
        let s :=
          if !oldPacket then
            let s :=
              if s.last_received_timestamp ≠ h.timestamp then
                { s with last_received_timestamp := h.timestamp,
                         last_received_frame_time_ms := o.now }
              else s
            { s with last_received_sequence_number := h.sequenceNumber,
                     last_received_transmission_time_offset :=
                       h.transmissionTimeOffset }
          else s
        (o.parseRtpPacketResult, s)

/-- RTPReceiver::IncomingRTPPacket.  Returns the result code, the header
as the caller sees it afterwards (the function mutates it in place for
RTX), and the new receiver state.  All validation happens in the source
order: the padding-length sanity check, then the RTX unwrap with its own
2-byte sanity check, then the tail above. -/
def IncomingRTPPacket (s : RTPReceiverState) (h : RtpHeader)
    (packet : List Nat) (packetLength : Nat) (o : Oracle) :
    Int × RtpHeader × RTPReceiverState :=
  let length : Int := (packetLength : Int) - (h.paddingLength : Int)
  if length - (h.headerLength : Int) < 0 then (-1, h, s)
  else if s.rtx ∧ s.ssrc_rtx = h.ssrc ∧ h.headerLength + 2 > packetLength then
    (-1, h, s)
  else
    let h :=
      if s.rtx ∧ s.ssrc_rtx = h.ssrc then
        { h with
          ssrc := s.ssrc
          sequenceNumber := 256 * packet.getD h.headerLength 0 +
            packet.getD (1 + h.headerLength) 0
          headerLength := h.headerLength + 2 }
      else h
    let r := IncomingRTPPacketTail s h packetLength o
    (r.1, h, r.2)

/-- One receiver transition that is not a packet ingress: the timer-thread
and query-thread entry points and the configuration setters of the
source. -/
inductive QuietStep : RTPReceiverState → RTPReceiverState → Prop where
  | packetTimeout (s : RTPReceiverState) (now : Int) :
      QuietStep s (PacketTimeout s now).1
  | statistics (s : RTPReceiverState) (reset : Bool) :
      QuietStep s (Statistics s reset).1
  | resetStatistics (s : RTPReceiverState) :
      QuietStep s (ResetStatistics s)
  | resetDataCounters (s : RTPReceiverState) :
      QuietStep s (ResetDataCounters s)
  | setPacketTimeout (s : RTPReceiverState) (ms : Nat) :
      QuietStep s (SetPacketTimeout s ms)
  | setNACKStatus (s : RTPReceiverState) (m : NACKMethod) (t : Int) :
      QuietStep s (SetNACKStatus s m t).1
  | setRTXStatus (s : RTPReceiverState) (e : Bool) (x : Nat) :
      QuietStep s (SetRTXStatus s e x)
  | setSSRCFilter (s : RTPReceiverState) (e : Bool) (x : Nat) :
      QuietStep s (SetSSRCFilter s e x)

/-- One receiver transition: a packet ingress (with arbitrary header,
bytes and oracle answers) or any quiet step. -/
inductive Step : RTPReceiverState → RTPReceiverState → Prop where
  | incoming (s : RTPReceiverState) (h : RtpHeader) (packet : List Nat)
      (packetLength : Nat) (o : Oracle) :
      Step s (IncomingRTPPacket s h packet packetLength o).2.2
  | quiet (s s2 : RTPReceiverState) : QuietStep s s2 → Step s s2

/-- States reachable from the freshly constructed receiver. -/
def Reachable (s : RTPReceiverState) : Prop :=
  Relation.ReflTransGen Step initState s

/-- States reachable from the freshly constructed receiver without any
packet ingress. -/
def ReachableWithoutIngress (s : RTPReceiverState) : Prop :=
  Relation.ReflTransGen QuietStep initState s

/-- A well-formed media packet header with the given sequence number and
timestamp, used by the concrete scenarios below. -/
def packetHeader (seq ts : Nat) : RtpHeader where
  ssrc := 1
  sequenceNumber := seq
  timestamp := ts
  payloadType := 96
  headerLength := 12
  paddingLength := 0
  arrOfCSRCs := []
  transmissionTimeOffset := 0
  numEnergy := 0
  arrOfEnergy := []

/-- Benign oracle answers for the concrete scenarios: a registered video
payload type, no payload change, no CSRC reporting, a successful media
parse, and the given clock readings. -/
def simpleOracle (now : Int) (rtpTime : Nat) : Oracle where
  now := now
  rtpTime := rtpTime
  frequencyHz := 90000
  minRtt := 0
  floatMaxDelayMs := 1
  lastReceivedPayloadType := 96
  payloadLookupOk := true
  payloadChangedShouldResetStatistics := false
  checkPayloadChangedResult := 0
  shouldReportCsrcChanges := false
  parseRtpPacketResult := 0

/-- Ingest a list of packets (header and oracle pairs), each carried in a
100-byte buffer, and keep the receiver state. -/
def ingestSeq (s : RTPReceiverState) (packets : List (RtpHeader × Oracle)) :
    RTPReceiverState :=
  packets.foldl
    (fun st p => (IncomingRTPPacket st p.1 (List.replicate 100 0) 100 p.2).2.2) s

/-- C2: ingesting the sequence-number sequence 0xFFFE, 0xFFFF, 0x0000,
0x0001 of otherwise well-formed packets from the bootstrap state leaves
seq_wraps = 1, seq_max = 0x0001 and inorder_packet_count = 4; and
ingesting 0xFFFF then 0x0000 leaves seq_wraps = 1 with a reported
extended highest sequence number of 0x10000. -/
theorem c2_sequence_wrap :
    (let sA := ingestSeq initState
      [(packetHeader 0xFFFE 1000, simpleOracle 1000 0),
       (packetHeader 0xFFFF 1000, simpleOracle 1010 0),
       (packetHeader 0x0000 1000, simpleOracle 1020 0),
       (packetHeader 0x0001 1000, simpleOracle 1030 0)]
     sA.received_seq_wraps = 1 ∧ sA.received_seq_max = 0x0001 ∧
       sA.received_inorder_packet_count = 4) ∧
    (let sB := ingestSeq initState
      [(packetHeader 0xFFFF 1000, simpleOracle 1000 0),
       (packetHeader 0x0000 1000, simpleOracle 1010 0)]
     sB.received_seq_wraps = 1 ∧
       (Statistics sB true).2.map Report.extendedMax = some 0x10000) := by
  decide

/-- C9: the statistics-update bootstrap branch is taken whenever
received_seq_max = 0 and received_seq_wraps = 0, whatever the rest of the
state says: sequence-first and sequence-max are overwritten with the
incoming sequence number and the in-order count is reset to 1 (the byte
count still accumulates and the sample clock is latched). -/
theorem c9_bootstrap_retrigger (s : RTPReceiverState) (h : RtpHeader)
    (bytes : Nat) (oldPacket : Bool) (rtpTime : Nat)
    (hmax : s.received_seq_max = 0) (hwraps : s.received_seq_wraps = 0) :
    UpdateStatistics s h bytes oldPacket rtpTime =
      { s with
          received_byte_count := (s.received_byte_count + bytes) % 4294967296
          received_seq_first := h.sequenceNumber
          received_seq_max := h.sequenceNumber
          received_inorder_packet_count := 1
          local_time_last_received_timestamp := rtpTime } := by
  unfold UpdateStatistics
  simp [hmax, hwraps]

/-- C9 witness: after a first packet carrying sequence number 0 the next
packet is again treated as a bootstrap packet, leaving the in-order count
at 1 instead of 2. -/
theorem c9_witness :
    (UpdateStatistics (UpdateStatistics initState (packetHeader 0 1000) 160 false 0)
        (packetHeader 5 2000) 160 false 0).received_inorder_packet_count = 1 ∧
    (UpdateStatistics (UpdateStatistics initState (packetHeader 0 1000) 160 false 0)
        (packetHeader 5 2000) 160 false 0).received_seq_first = 5 := by
  rw [c9_bootstrap_retrigger (UpdateStatistics initState (packetHeader 0 1000) 160 false 0)
    (packetHeader 5 2000) 160 false 0 (by decide) (by decide)]
  exact ⟨rfl, rfl⟩

/-- C6 counterexample: with current ssrc 5, a header from ssrc 6 whose
payload type 96 equals the last bound payload type but is not resolvable
in the registry triggers the detection, yet the call returns with the
stored ssrc still 5 and no callback fired, contrary to the claim that the
new SSRC is stored and SetRemoteSSRC and OnIncomingSSRCChanged fire for
every triggering header. -/
theorem c6_counterexample :
    (CheckSSRCChanged { initState with ssrc := 5 } 6 96 96 false).1.ssrc = 5 ∧
    (CheckSSRCChanged { initState with ssrc := 5 } 6 96 96 false).2 = [] := by
  decide

/-- C6 amended: for every triggering header, except when the old ssrc is
non-zero, the payload type equals the last bound one and the registry
lookup fails (in which case the source returns early after resetting the
statistics, storing no SSRC and firing nothing), the detection resets all
statistics, clears the four last-received fields, stores the incoming
SSRC, and fires SetRemoteSSRC then OnIncomingSSRCChanged in that order
after the lock is released. -/
theorem c6_ssrc_change_amended (s : RTPReceiverState)
    (hdrSsrc hdrPayloadType : Nat) (lastPt : Int) (lookupOk : Bool)
    (htrig : s.ssrc ≠ hdrSsrc ∨ (lastPt = -1 ∧ s.ssrc = 0))
    (hok : ¬ (s.ssrc ≠ 0 ∧ (hdrPayloadType : Int) = lastPt ∧ lookupOk = false)) :
    (CheckSSRCChanged s hdrSsrc hdrPayloadType lastPt lookupOk).1 =
      { ResetStatistics s with
          last_received_timestamp := 0
          last_received_sequence_number := 0
          last_received_transmission_time_offset := 0
          last_received_frame_time_ms := 0
          ssrc := hdrSsrc } ∧
    (CheckSSRCChanged s hdrSsrc hdrPayloadType lastPt lookupOk).2.take 2 =
      [Event.setRemoteSSRC hdrSsrc, Event.onIncomingSSRCChanged hdrSsrc] := by
  unfold CheckSSRCChanged
  rw [if_pos htrig]
  by_cases hc : s.ssrc ≠ 0 ∧ (hdrPayloadType : Int) = lastPt
  · have hl : lookupOk = true := by
      cases lookupOk
      · exact absurd ⟨hc.1, hc.2, rfl⟩ hok
      · rfl
    rw [if_pos hc, if_neg (by simp [hl])]
    exact ⟨rfl, rfl⟩
  · rw [if_neg hc]
    exact ⟨rfl, rfl⟩

/-- C6 witness: the very first packet (current ssrc 0, payload type bound)
triggers the detection and both callbacks fire in order with the new SSRC
stored. -/
theorem c6_witness :
    (CheckSSRCChanged initState 6 96 96 true).1 =
      { ResetStatistics initState with
          last_received_timestamp := 0
          last_received_sequence_number := 0
          last_received_transmission_time_offset := 0
          last_received_frame_time_ms := 0
          ssrc := 6 } ∧
    (CheckSSRCChanged initState 6 96 96 true).2.take 2 =
      [Event.setRemoteSSRC 6, Event.onIncomingSSRCChanged 6] :=
  c6_ssrc_change_amended initState 6 96 96 true (Or.inl (by decide)) (by decide)

/-- Receiver configured for RTX with rtx_ssrc 9 and primary ssrc 1, as in
the claimed C4 example. -/
def c4State : RTPReceiverState :=
  { initState with rtx := true, ssrc_rtx := 9, ssrc := 1 }

/-- An RTX packet header that holds the two RTX bytes (header_length 12,
packet length 14) but carries 3 bytes of padding. -/
def c4Header : RtpHeader :=
  { packetHeader 7 0 with ssrc := 9, paddingLength := 3 }

/-- The raw bytes of the C4 packet: 12 header bytes then 0x00 0x64. -/
def c4Packet : List Nat := List.replicate 12 0 ++ [0, 100]

/-- C4 counterexample: the packet satisfies header_length + 2 <= packet
length, so the claim demands the RTX remap, but the padding-length sanity
check that runs first rejects the packet with -1 and the header keeps
ssrc 9 and header_length 12. -/
theorem c4_counterexample :
    c4Header.headerLength + 2 ≤ 14 ∧
    (IncomingRTPPacket c4State c4Header c4Packet 14 (simpleOracle 1000 0)).1 = -1 ∧
    (IncomingRTPPacket c4State c4Header c4Packet 14 (simpleOracle 1000 0)).2.1 =
      c4Header := by
  decide

/-- C4 amended: for every incoming packet with RTX enabled and the header
SSRC equal to the configured rtx_ssrc, provided the packet also passes
the padding sanity check (packet_length - padding_length >= header_length)
that the ingress runs first: if header_length + 2 > packet_length the call
returns -1 with the header untouched, and otherwise the header SSRC is
overwritten with the primary ssrc, the sequence number with the
big-endian 16-bit value at bytes [header_length, header_length + 2), and
header_length grows by exactly 2. -/
theorem c4_rtx_amended (s : RTPReceiverState) (h : RtpHeader)
    (packet : List Nat) (packetLength : Nat) (o : Oracle)
    (hrtx : s.rtx = true) (hssrc : h.ssrc = s.ssrc_rtx)
    (hsane : (h.paddingLength : Int) + (h.headerLength : Int) ≤ (packetLength : Int)) :
    (h.headerLength + 2 > packetLength →
       (IncomingRTPPacket s h packet packetLength o).1 = -1 ∧
       (IncomingRTPPacket s h packet packetLength o).2.1 = h) ∧
    (h.headerLength + 2 ≤ packetLength →
       (IncomingRTPPacket s h packet packetLength o).2.1 =
         { h with
             ssrc := s.ssrc
             sequenceNumber := 256 * packet.getD h.headerLength 0 +
               packet.getD (1 + h.headerLength) 0
             headerLength := h.headerLength + 2 }) := by
  have hneg : ¬ ((packetLength : Int) - (h.paddingLength : Int) -
      (h.headerLength : Int) < 0) := by omega
  constructor
  · intro hgt
    simp only [IncomingRTPPacket, if_neg hneg,
      if_pos (show s.rtx = true ∧ s.ssrc_rtx = h.ssrc ∧
        h.headerLength + 2 > packetLength from ⟨hrtx, hssrc.symm, hgt⟩)]
    refine ⟨?_, ?_⟩ <;> trivial
  · intro hle
    have h2 : ¬ (s.rtx = true ∧ s.ssrc_rtx = h.ssrc ∧
        h.headerLength + 2 > packetLength) := fun hcon => absurd hcon.2.2 (by omega)
    simp only [IncomingRTPPacket, if_neg hneg, if_neg h2,
      if_pos (show s.rtx = true ∧ s.ssrc_rtx = h.ssrc from ⟨hrtx, hssrc.symm⟩)]

/-- C4 witness: the claimed example, now with zero padding: rtx_ssrc 9,
primary ssrc 1, a packet of ssrc 9 with sequence number 7, header length
12 and body starting 0x00 0x64 is remapped to ssrc 1, sequence number
100 and header length 14. -/
theorem c4_witness :
    (IncomingRTPPacket c4State { c4Header with paddingLength := 0 } c4Packet 14
        (simpleOracle 1000 0)).2.1 =
      { c4Header with
          paddingLength := 0
          ssrc := 1
          sequenceNumber := 100
          headerLength := 14 } := by
  have h := (c4_rtx_amended c4State { c4Header with paddingLength := 0 } c4Packet 14
    (simpleOracle 1000 0) (by decide) (by decide) (by decide)).2 (by decide)
  rw [h]
  decide

/-- C10: the Energy accessor always returns num_energy, but when
num_energy is positive it copies only num_csrcs energy bytes into the
caller array, so every slot at an index at or beyond num_csrcs (in
particular the slots in [num_csrcs, num_energy) when num_energy exceeds
num_csrcs) keeps the caller value, while the slots below num_csrcs
receive the stored energy bytes.  The hypothesis records that the stored
energy array has at least num_csrcs slots (both are 15-slot arrays in the
source). -/
theorem c10_energy_copies_num_csrcs (s : RTPReceiverState) (a : List Nat)
    (d : Nat)
    (hlen : s.current_remote_csrc.length ≤ s.current_remote_energy.length) :
    (Energy s a).2 = s.num_energy ∧
    (0 < s.num_energy → ∀ i : Nat, i < s.current_remote_csrc.length →
        (Energy s a).1.getD i d = s.current_remote_energy.getD i d) ∧
    (0 < s.num_energy → ∀ i : Nat, s.current_remote_csrc.length ≤ i →
        (Energy s a).1.getD i d = a.getD i d) := by
  unfold Energy
  by_cases hn : s.num_energy > 0
  · rw [if_pos hn]
    have hlt : (s.current_remote_energy.take s.current_remote_csrc.length).length =
        s.current_remote_csrc.length := by
      simp [List.length_take]
      omega
    refine ⟨rfl, fun _ i hi => ?_, fun _ i hi => ?_⟩
    · have hia : i < (s.current_remote_energy.take
          s.current_remote_csrc.length).length := by omega
      rw [List.getD_append _ _ _ _ hia]
      simp [List.getD_eq_getElem?_getD, List.getElem?_take_of_lt hi]
    · have hia : (s.current_remote_energy.take
          s.current_remote_csrc.length).length ≤ i := by omega
      rw [List.getD_append_right _ _ _ _ hia, hlt]
      rw [List.getD_eq_getElem?_getD, List.getD_eq_getElem?_getD,
        List.getElem?_drop]
      congr 2
      omega
  · rw [if_neg hn]
    exact ⟨rfl, fun hp => absurd hp hn, fun _ _ _ => rfl⟩

/-- C10 witness: three energy bytes stored but a single tracked CSRC: the
call returns 3, writes one byte, and leaves the caller slots 1 and 2
untouched. -/
theorem c10_witness :
    (Energy { initState with
        num_energy := 3
        current_remote_csrc := [17]
        current_remote_energy := [9, 8, 7] ++ List.replicate 12 0 } [4, 4, 4, 4]).2 = 3 ∧
    (Energy { initState with
        num_energy := 3
        current_remote_csrc := [17]
        current_remote_energy := [9, 8, 7] ++ List.replicate 12 0 } [4, 4, 4, 4]).1.getD 1 0 = 4 := by
  refine ⟨(c10_energy_copies_num_csrcs _ [4, 4, 4, 4] 0 (by decide)).1, ?_⟩
  rw [(c10_energy_copies_num_csrcs { initState with
        num_energy := 3
        current_remote_csrc := [17]
        current_remote_energy := [9, 8, 7] ++ List.replicate 12 0 } [4, 4, 4, 4] 0
      (by decide)).2.2 (by decide) 1 (by decide)]
  decide

/-- The jitter block of the in-order branch applies the guarded Q4 step to
both jitter accumulators with the pre-packet field values, once the packet
has a new timestamp and the incremented in-order count exceeds 1. -/
lemma updateStatisticsInOrder_jitter (s : RTPReceiverState) (h : RtpHeader)
    (rtpTime : Nat)
    (hts : h.timestamp ≠ s.last_received_timestamp)
    (hgt : (s.received_inorder_packet_count + 1) % 4294967296 > 1) :
    (UpdateStatisticsInOrder s h rtpTime).jitter_q4 =
      JitterUpdate s.jitter_q4 (TimeDiffSamples rtpTime
        s.local_time_last_received_timestamp h.timestamp
        s.last_received_timestamp) ∧
    (UpdateStatisticsInOrder s h rtpTime).jitter_q4_transmission_time_offset =
      JitterUpdate s.jitter_q4_transmission_time_offset
        (TimeDiffSamplesExt rtpTime s.local_time_last_received_timestamp
          h.timestamp s.last_received_timestamp h.transmissionTimeOffset
          s.last_received_transmission_time_offset) := by
  unfold UpdateStatisticsInOrder UpdateStatisticsJitter
  dsimp only
  split
  · rw [if_pos (show h.timestamp ≠ s.last_received_timestamp ∧
      (s.received_inorder_packet_count + 1) % 4294967296 > 1 from ⟨hts, hgt⟩)]
    exact ⟨rfl, rfl⟩
  · rw [if_pos (show h.timestamp ≠ s.last_received_timestamp ∧
      (s.received_inorder_packet_count + 1) % 4294967296 > 1 from ⟨hts, hgt⟩)]
    exact ⟨rfl, rfl⟩

/-- C3 amended: for every in-order, non-bootstrap packet whose RTP
timestamp differs from the last received timestamp and that is not the
first in-order packet since the counts were last cleared (the two count
hypotheses are exactly the source gate: the incremented in-order count,
taken modulo 2^32, exceeds 1), with d the absolute 32-bit interarrival
difference in samples: when d reaches 450000 jitter_q4 is left
unchanged, otherwise it becomes
jitter_q4 + (((d << 4) - jitter_q4 + 8) >> 4) with the 32-bit wrapping
and arithmetic shift of the source, bit-exactly; and the same rule with
the transmission-time-offset corrected difference governs
jitter_q4_transmission_time_offset. -/
theorem c3_jitter_q4_update (s : RTPReceiverState) (h : RtpHeader)
    (bytes : Nat) (oldPacket : Bool) (rtpTime : Nat)
    (hboot : ¬ (s.received_seq_max = 0 ∧ s.received_seq_wraps = 0))
    (hord : InOrderPacket s h.sequenceNumber = true)
    (hts : h.timestamp ≠ s.last_received_timestamp)
    (hcnt : 1 ≤ s.received_inorder_packet_count)
    (hcnt2 : s.received_inorder_packet_count + 1 < 4294967296) :
    ((UpdateStatistics s h bytes oldPacket rtpTime).jitter_q4 =
      (if 450000 ≤ TimeDiffSamples rtpTime s.local_time_last_received_timestamp
          h.timestamp s.last_received_timestamp then s.jitter_q4
       else
         mod32 ((s.jitter_q4 : Int) +
           Int.fdiv (toS32 (mod32 ((TimeDiffSamples rtpTime
             s.local_time_last_received_timestamp h.timestamp
             s.last_received_timestamp : Int) * 16 - (s.jitter_q4 : Int))) + 8) 16))) ∧
    ((UpdateStatistics s h bytes oldPacket rtpTime).jitter_q4_transmission_time_offset =
      (if 450000 ≤ TimeDiffSamplesExt rtpTime s.local_time_last_received_timestamp
          h.timestamp s.last_received_timestamp h.transmissionTimeOffset
          s.last_received_transmission_time_offset then
         s.jitter_q4_transmission_time_offset
       else
         mod32 ((s.jitter_q4_transmission_time_offset : Int) +
           Int.fdiv (toS32 (mod32 ((TimeDiffSamplesExt rtpTime
             s.local_time_last_received_timestamp h.timestamp
             s.last_received_timestamp h.transmissionTimeOffset
             s.last_received_transmission_time_offset : Int) * 16 -
               (s.jitter_q4_transmission_time_offset : Int))) + 8) 16))) := by
  have hgt : (s.received_inorder_packet_count + 1) % 4294967296 > 1 := by omega
  have hj := updateStatisticsInOrder_jitter
    { s with received_byte_count := (s.received_byte_count + bytes) % 4294967296 }
    h rtpTime hts hgt
  dsimp only at hj
  unfold UpdateStatistics
  dsimp only
  rw [if_neg hboot, hord]
  simp only [eq_self_iff_true, if_true]
  refine ⟨?_, ?_⟩
  · rw [hj.1]
    unfold JitterUpdate
    by_cases hd : TimeDiffSamples rtpTime s.local_time_last_received_timestamp
        h.timestamp s.last_received_timestamp < 450000
    · rw [if_pos hd, if_neg (by omega)]
    · rw [if_neg hd, if_pos (by omega)]
  · rw [hj.2]
    unfold JitterUpdate
    by_cases hd : TimeDiffSamplesExt rtpTime s.local_time_last_received_timestamp
        h.timestamp s.last_received_timestamp h.transmissionTimeOffset
        s.last_received_transmission_time_offset < 450000
    · rw [if_pos hd, if_neg (by omega)]
    · rw [if_neg hd, if_pos (by omega)]

/-- Receiver state for the C3 witness: one in-order packet already seen,
sequence maximum 100, last timestamp 1000, sample clock latched at 0. -/
def c3State : RTPReceiverState :=
  { initState with
      received_seq_max := 100
      received_inorder_packet_count := 1
      last_received_timestamp := 1000 }

/-- C3 witness: the next in-order packet with perfect spacing (a 160
sample step on both clocks) leaves jitter_q4 at 0. -/
theorem c3_witness :
    (UpdateStatistics c3State (packetHeader 101 1160) 160 false 160).jitter_q4 = 0 := by
  rw [(c3_jitter_q4_update c3State (packetHeader 101 1160) 160 false 160
    (by decide) (by decide) (by decide) (by decide) (by decide)).1]
  decide

/-- Receiver state reached by ingesting one packet (sequence number 100,
timestamp 1000, sample clock latched at 0) and then calling
ResetDataCounters, which zeroes the in-order count but leaves
received_seq_max at 100 and the last received timestamp at 1000. -/
def c3ResetState : RTPReceiverState :=
  ResetDataCounters
    (IncomingRTPPacket initState (packetHeader 100 1000)
      (List.replicate 100 0) 100 (simpleOracle 1000 0)).2.2

/-- C3 counterexample: in the reachable state c3ResetState the next
packet (sequence number 101, timestamp 1160, sample clock 1000) is
in-order and non-bootstrap, its timestamp differs from the last received
one, and its interarrival difference is 840 < 450000 samples, so the
claim demands the bit-exact update of jitter_q4 from 0 to
((840 << 4) + 8) >> 4 = 840; but the source gate at line 489
(received_inorder_packet_count_ > 1 after the increment) fails because
ResetDataCounters cleared the count, and jitter_q4 stays 0. -/
theorem c3_counterexample :
    Reachable c3ResetState ∧
    ¬ (c3ResetState.received_seq_max = 0 ∧ c3ResetState.received_seq_wraps = 0) ∧
    InOrderPacket c3ResetState 101 = true ∧
    (1160 : Nat) ≠ c3ResetState.last_received_timestamp ∧
    TimeDiffSamples 1000 c3ResetState.local_time_last_received_timestamp 1160
      c3ResetState.last_received_timestamp = 840 ∧
    mod32 ((c3ResetState.jitter_q4 : Int) +
      Int.fdiv (toS32 (mod32 ((840 : Int) * 16 -
        (c3ResetState.jitter_q4 : Int))) + 8) 16) = 840 ∧
    (UpdateStatistics c3ResetState (packetHeader 101 1160) 160 false
      1000).jitter_q4 = 0 := by
  refine ⟨?_, by decide, by decide, by decide, by decide, by decide, by decide⟩
  have h1 : Step initState
      (IncomingRTPPacket initState (packetHeader 100 1000)
        (List.replicate 100 0) 100 (simpleOracle 1000 0)).2.2 :=
    Step.incoming initState (packetHeader 100 1000) (List.replicate 100 0)
      100 (simpleOracle 1000 0)
  have h2 : Step
      (IncomingRTPPacket initState (packetHeader 100 1000)
        (List.replicate 100 0) 100 (simpleOracle 1000 0)).2.2 c3ResetState :=
    Step.quiet _ _ (QuietStep.resetDataCounters _)
  exact Relation.ReflTransGen.head h1 (Relation.ReflTransGen.single h2)

/-- C7: calling Statistics with reset = false mutates no receiver state
(so any number of consecutive calls return the same values), and on the
state left by a successful reset = true report whose stored in-order
snapshot is non-zero (the source notion of a report having been
generated) it returns exactly the values that report persisted. -/
theorem c7_statistics_no_reset_pure :
    (∀ s : RTPReceiverState, (Statistics s false).1 = s) ∧
    (∀ (s s2 : RTPReceiverState) (r : Report),
       Statistics s true = (s2, some r) →
       s2.last_report_inorder_packets ≠ 0 →
       Statistics s2 false = (s2, some r)) := by
  constructor
  · intro s
    unfold Statistics
    split
    · rfl
    · split
      · split <;> rfl
      · next hf => exact absurd (by decide) hf
  · intro s s2 r heq hne
    unfold Statistics at heq
    by_cases hg : s.received_seq_first = 0 ∧ s.received_byte_count = 0
    · rw [if_pos hg] at heq
      exact absurd (congrArg Prod.snd heq) (by simp)
    · rw [if_neg hg] at heq
      rw [if_neg (show ¬ ((!true : Bool) = true) by decide)] at heq
      injection heq with hs hr
      injection hr with hr
      subst hs
      subst hr
      unfold Statistics
      rw [if_neg (by exact hg)]
      dsimp only [Bool.not_false]
      rw [if_neg hne]
      rfl

/-- The state after one media packet with sequence number 100, used by the
C7 witness. -/
def c7State : RTPReceiverState :=
  ingestSeq initState [(packetHeader 100 1000, simpleOracle 1000 0)]

/-- The report the first reset = true call on c7State produces. -/
def c7Report : Report where
  fractionLost := 0
  cumulativeLost := 0
  extendedMax := 100
  jitter := 0
  maxJitter := 0
  jitterTransmissionTimeOffset := 0

/-- C7 witness: after one packet and one reset = true report, the
reset = false query returns the persisted report verbatim without
touching the state. -/
theorem c7_witness :
    Statistics (Statistics c7State true).1 false =
      ((Statistics c7State true).1, some c7Report) :=
  c7_statistics_no_reset_pure.2 c7State (Statistics c7State true).1 c7Report
    (by decide) (by decide)

/-- Receiver state reached by: packet 0xFFFF, reset = true report, packet
0x0001 (an in-order wrap).  The last-report maximum 0xFFFF is now
numerically above the 16-bit maximum 1. -/
def c1State : RTPReceiverState :=
  ingestSeq
    (Statistics (ingestSeq initState
      [(packetHeader 0xFFFF 5000, simpleOracle 1000 0)]) true).1
    [(packetHeader 1 6000, simpleOracle 1020 160)]

/-- C1 counterexample: in the reachable state c1State a report has been
generated and one packet (seq_max 1 after a wrap, with last_report_seq_max
0xFFFF) arrived since, so the unsigned 16-bit difference
seq_max - last_report_seq_max is 2 and one packet of the two expected was
received; the claim therefore demands expected_since_last 2 and a
fraction-lost of 255 * 1 / 2 = 127, but the source zeroes
exp_since_last whenever last_report_seq_max > received_seq_max and
reports fraction-lost 0. -/
theorem c1_counterexample :
    Reachable c1State ∧
    c1State.received_seq_max = 1 ∧
    c1State.last_report_seq_max = 65535 ∧
    c1State.last_report_inorder_packets = 1 ∧
    mod16 ((c1State.received_seq_max : Int) - (c1State.last_report_seq_max : Int)) = 2 ∧
    recSinceLastFn c1State = 1 ∧
    expSinceLastFn c1State = 0 ∧
    (Statistics c1State true).2.map Report.fractionLost = some 0 := by
  refine ⟨?_, by decide, by decide, by decide, by decide, by decide, by decide,
    by decide⟩
  have h1 : Step initState
      (ingestSeq initState [(packetHeader 0xFFFF 5000, simpleOracle 1000 0)]) :=
    Step.incoming initState (packetHeader 0xFFFF 5000) (List.replicate 100 0)
      100 (simpleOracle 1000 0)
  have h2 : Step
      (ingestSeq initState [(packetHeader 0xFFFF 5000, simpleOracle 1000 0)])
      (Statistics (ingestSeq initState
        [(packetHeader 0xFFFF 5000, simpleOracle 1000 0)]) true).1 :=
    Step.quiet _ _ (QuietStep.statistics _ true)
  have h3 : Step
      (Statistics (ingestSeq initState
        [(packetHeader 0xFFFF 5000, simpleOracle 1000 0)]) true).1 c1State :=
    Step.incoming _ (packetHeader 1 6000) (List.replicate 100 0) 100
      (simpleOracle 1020 160)
  exact Relation.ReflTransGen.head h1
    (Relation.ReflTransGen.head h2 (Relation.ReflTransGen.single h3))

/-- C1 amended: on a reset = true call after at least one packet, if no
report was generated before then the last-report maximum is first set to
seq_first - 1 (unsigned 16-bit); expected_since_last then equals the
unsigned 16-bit difference seq_max - last_report_seq_max whenever
last_report_seq_max <= seq_max, but is forced to 0 whenever
last_report_seq_max exceeds seq_max (for instance after a wrap between
reports), and the reported fraction-lost is derived from that clamped
count. -/
theorem c1_expected_since_last_amended (s : RTPReceiverState)
    (hpkt : ¬ (s.received_seq_first = 0 ∧ s.received_byte_count = 0)) :
    (s.last_report_inorder_packets = 0 →
       lastReportSeqMaxInit s = mod16 ((s.received_seq_first : Int) - 1)) ∧
    (lastReportSeqMaxInit s ≤ s.received_seq_max →
       expSinceLastFn s =
         mod16 ((s.received_seq_max : Int) - (lastReportSeqMaxInit s : Int))) ∧
    (s.received_seq_max < lastReportSeqMaxInit s → expSinceLastFn s = 0) ∧
    ((Statistics s true).2.map Report.fractionLost =
       some (if expSinceLastFn s ≠ 0 then 255 * missingFn s / expSinceLastFn s
         else 0)) := by
  refine ⟨fun h0 => ?_, fun hle => ?_, fun hlt => ?_, ?_⟩
  · unfold lastReportSeqMaxInit
    rw [if_pos h0]
  · unfold expSinceLastFn
    rw [if_neg (not_lt.mpr hle)]
  · unfold expSinceLastFn
    rw [if_pos hlt]
  · unfold Statistics
    rw [if_neg hpkt, if_neg (show ¬ ((!true : Bool) = true) by decide)]
    rfl

/-- A one-packet state (seq_first = seq_max = 100, 160 bytes counted) for
the C1 amended witness. -/
def c1WitnessState : RTPReceiverState :=
  { initState with
      received_seq_first := 100
      received_seq_max := 100
      received_byte_count := 160
      received_inorder_packet_count := 1 }

/-- C1 witness: the amended statement instantiated at the one-packet
state. -/
theorem c1_witness :
    (c1WitnessState.last_report_inorder_packets = 0 →
       lastReportSeqMaxInit c1WitnessState =
         mod16 ((c1WitnessState.received_seq_first : Int) - 1)) ∧
    (lastReportSeqMaxInit c1WitnessState ≤ c1WitnessState.received_seq_max →
       expSinceLastFn c1WitnessState =
         mod16 ((c1WitnessState.received_seq_max : Int) -
           (lastReportSeqMaxInit c1WitnessState : Int))) ∧
    (c1WitnessState.received_seq_max < lastReportSeqMaxInit c1WitnessState →
       expSinceLastFn c1WitnessState = 0) ∧
    ((Statistics c1WitnessState true).2.map Report.fractionLost =
       some (if expSinceLastFn c1WitnessState ≠ 0 then
         255 * missingFn c1WitnessState / expSinceLastFn c1WitnessState
         else 0)) :=
  c1_expected_since_last_amended c1WitnessState (by decide)

/-- The sequence, byte, jitter, loss and last-received counters that claim
C5 asserts to be zero in every idle state. -/
def CountersZero (s : RTPReceiverState) : Prop :=
  s.received_seq_first = 0 ∧ s.received_seq_max = 0 ∧
  s.received_seq_wraps = 0 ∧ s.received_inorder_packet_count = 0 ∧
  s.received_old_packet_count = 0 ∧ s.received_byte_count = 0 ∧
  s.jitter_q4 = 0 ∧ s.jitter_max_q4 = 0 ∧
  s.jitter_q4_transmission_time_offset = 0 ∧ s.cumulative_loss = 0 ∧
  s.last_received_timestamp = 0 ∧ s.last_received_sequence_number = 0 ∧
  s.last_received_transmission_time_offset = 0 ∧
  s.last_received_frame_time_ms = 0

/-- PacketTimeout either leaves the state alone or only clears
last_receive_time; it never touches any counter. -/
lemma packetTimeout_state_cases (s : RTPReceiverState) (now : Int) :
    (PacketTimeout s now).1 = s ∨
    (PacketTimeout s now).1 = { s with last_receive_time := 0 } := by
  unfold PacketTimeout
  split
  · left; rfl
  · split
    · left; rfl
    · split
      · right; rfl
      · left; rfl

/-- Every non-ingress transition keeps an idle all-zero receiver idle and
all-zero. -/
lemma quietStep_preserves_idle_zero (s s2 : RTPReceiverState)
    (hstep : QuietStep s s2) (hz : s.last_receive_time = 0 ∧ CountersZero s) :
    s2.last_receive_time = 0 ∧ CountersZero s2 := by
  obtain ⟨hlrt, h1, h2, h3, h4, h5, h6, h7, h8, h9, h10, h11, h12, h13, h14⟩ := hz
  cases hstep with
  | packetTimeout now =>
      rcases packetTimeout_state_cases s now with hc | hc
      · rw [hc]
        exact ⟨hlrt, h1, h2, h3, h4, h5, h6, h7, h8, h9, h10, h11, h12, h13, h14⟩
      · rw [hc]
        exact ⟨rfl, h1, h2, h3, h4, h5, h6, h7, h8, h9, h10, h11, h12, h13, h14⟩
  | statistics reset =>
      unfold Statistics
      rw [if_pos ⟨h1, h6⟩]
      exact ⟨hlrt, h1, h2, h3, h4, h5, h6, h7, h8, h9, h10, h11, h12, h13, h14⟩
  | resetStatistics =>
      exact ⟨hlrt, rfl, rfl, rfl, rfl, rfl, rfl, rfl, rfl, rfl, rfl,
        h11, h12, h13, h14⟩
  | resetDataCounters =>
      exact ⟨hlrt, h1, h2, h3, rfl, rfl, rfl, h7, h8, h9, h10,
        h11, h12, h13, h14⟩
  | setPacketTimeout ms =>
      exact ⟨hlrt, h1, h2, h3, h4, h5, h6, h7, h8, h9, h10, h11, h12, h13, h14⟩
  | setNACKStatus m t =>
      unfold SetNACKStatus
      split
      · exact ⟨hlrt, h1, h2, h3, h4, h5, h6, h7, h8, h9, h10, h11, h12, h13, h14⟩
      · split
        · exact ⟨hlrt, h1, h2, h3, h4, h5, h6, h7, h8, h9, h10, h11, h12, h13, h14⟩
        · exact ⟨hlrt, h1, h2, h3, h4, h5, h6, h7, h8, h9, h10, h11, h12, h13, h14⟩
  | setRTXStatus e x =>
      exact ⟨hlrt, h1, h2, h3, h4, h5, h6, h7, h8, h9, h10, h11, h12, h13, h14⟩
  | setSSRCFilter e x =>
      exact ⟨hlrt, h1, h2, h3, h4, h5, h6, h7, h8, h9, h10, h11, h12, h13, h14⟩

/-- Receiver state after: timeout configured to 500 ms, one packet with
sequence number 100 at time 1000. -/
def c5AfterPacket : RTPReceiverState :=
  (IncomingRTPPacket (SetPacketTimeout initState 500) (packetHeader 100 1000)
    (List.replicate 100 0) 100 (simpleOracle 1000 0)).2.2

/-- The same receiver after the packet timeout fires at time 2000. -/
def c5AfterTimeout : RTPReceiverState := (PacketTimeout c5AfterPacket 2000).1

/-- C5 counterexample: the timeout clears last_receive_time (the idle
marker) but leaves the sequence, count and byte counters at their
post-packet values, so the reachable state c5AfterTimeout is idle with
non-zero counters, contrary to the claimed invariant. -/
theorem c5_counterexample :
    Reachable c5AfterTimeout ∧
    c5AfterTimeout.last_receive_time = 0 ∧
    c5AfterTimeout.received_seq_max = 100 ∧
    c5AfterTimeout.received_inorder_packet_count = 1 ∧
    c5AfterTimeout.received_byte_count = 88 := by
  refine ⟨?_, by decide, by decide, by decide, by decide⟩
  have h1 : Step initState (SetPacketTimeout initState 500) :=
    Step.quiet _ _ (QuietStep.setPacketTimeout initState 500)
  have h2 : Step (SetPacketTimeout initState 500) c5AfterPacket :=
    Step.incoming _ (packetHeader 100 1000) (List.replicate 100 0) 100
      (simpleOracle 1000 0)
  have h3 : Step c5AfterPacket c5AfterTimeout :=
    Step.quiet _ _ (QuietStep.packetTimeout c5AfterPacket 2000)
  exact Relation.ReflTransGen.head h1
    (Relation.ReflTransGen.head h2 (Relation.ReflTransGen.single h3))

/-- C5 amended: in every state reachable without ingesting any packet the
receiver is idle and all the listed counters are zero; and the
packet-timeout path never zeroes the counters: it either leaves the state
unchanged or only clears last_receive_time, so an idle state reached via
the timeout keeps its pre-timeout counter values. -/
theorem c5_idle_counters_amended :
    (∀ s : RTPReceiverState, ReachableWithoutIngress s →
        s.last_receive_time = 0 ∧ CountersZero s) ∧
    (∀ (s : RTPReceiverState) (now : Int),
        (PacketTimeout s now).1 = s ∨
        (PacketTimeout s now).1 = { s with last_receive_time := 0 }) := by
  constructor
  · intro s hr
    unfold ReachableWithoutIngress at hr
    induction hr with
    | refl =>
        exact ⟨rfl, rfl, rfl, rfl, rfl, rfl, rfl, rfl, rfl, rfl, rfl, rfl,
          rfl, rfl, rfl⟩
    | tail hsteps hstep ih => exact quietStep_preserves_idle_zero _ _ hstep ih
  · exact packetTimeout_state_cases

/-- C5 witness: the amended statement instantiated at the constructor
state and a timeout at time 5. -/
theorem c5_witness :
    (initState.last_receive_time = 0 ∧ CountersZero initState) ∧
    ((PacketTimeout initState 5).1 = initState ∨
      (PacketTimeout initState 5).1 = { initState with last_receive_time := 0 }) :=
  ⟨c5_idle_counters_amended.1 initState Relation.ReflTransGen.refl,
   c5_idle_counters_amended.2 initState 5⟩

/-- Whenever a per-CSRC addition callback with a non-zero CSRC is emitted,
that CSRC is in the updated tracked list. -/
lemma checkCSRC_added_mem (s : RTPReceiverState) (cs : List Nat) (ne : Nat)
    (en : List Nat) (sr : Bool) (x : Nat) (hx : x ≠ 0)
    (hmem : Event.onIncomingCSRCChanged x true ∈ (CheckCSRC s cs ne en sr).2) :
    x ∈ (CheckCSRC s cs ne en sr).1.current_remote_csrc := by
  unfold CheckCSRC at hmem ⊢
  by_cases hsr : sr = false
  · rw [if_pos hsr] at hmem
    simp at hmem
  · rw [if_neg hsr] at hmem ⊢
    dsimp only at hmem ⊢
    by_cases hz : cs.length = 0 ∧ s.current_remote_csrc.length = 0
    · rw [if_pos hz] at hmem
      simp at hmem
    · rw [if_neg hz] at hmem ⊢
      dsimp only at hmem ⊢
      split at hmem
      · split at hmem <;> simp_all
      · rcases List.mem_append.mp hmem with hm | hm
        · obtain ⟨c, hc, hcEq⟩ := List.mem_map.mp hm
          obtain ⟨hcs, _⟩ := List.mem_filter.mp hc
          injection hcEq with h1 h2
          subst h1
          exact hcs
        · obtain ⟨c, hc, hcEq⟩ := List.mem_map.mp hm
          injection hcEq with h1 h2
          exact absurd h2 (by decide)

/-- Whenever a tracked non-zero CSRC disappears from the tracked list
during a CheckCSRC call, that call emits its removal callback. -/
lemma checkCSRC_removed_event (s : RTPReceiverState) (cs : List Nat)
    (ne : Nat) (en : List Nat) (sr : Bool) (x : Nat) (hx : x ≠ 0)
    (hold : x ∈ s.current_remote_csrc)
    (hnew : x ∉ (CheckCSRC s cs ne en sr).1.current_remote_csrc) :
    Event.onIncomingCSRCChanged x false ∈ (CheckCSRC s cs ne en sr).2 := by
  unfold CheckCSRC at hnew ⊢
  by_cases hsr : sr = false
  · rw [if_pos hsr] at hnew
    exact absurd hold hnew
  · rw [if_neg hsr] at hnew ⊢
    dsimp only at hnew ⊢
    by_cases hz : cs.length = 0 ∧ s.current_remote_csrc.length = 0
    · rw [if_pos hz] at hnew
      exact absurd hold hnew
    · rw [if_neg hz] at hnew ⊢
      dsimp only at hnew ⊢
      have hrem : Event.onIncomingCSRCChanged x false ∈
          (s.current_remote_csrc.filter
            (fun c => (!(cs.contains c)) && (c != 0))).map
            (fun c => Event.onIncomingCSRCChanged c false) := by
        refine List.mem_map.mpr ⟨x, List.mem_filter.mpr ⟨hold, ?_⟩, rfl⟩
        simp only [Bool.and_eq_true, Bool.not_eq_true', ne_eq, bne_iff_ne]
        exact ⟨by simpa using hnew, hx⟩
      split
      · next hemp =>
          rw [List.append_eq_nil] at hemp
          rw [hemp.2] at hrem
          simp at hrem
      · exact List.mem_append.mpr (Or.inr hrem)

/-- One CheckCSRC invocation as seen from a packet header: its CSRC list
(at most 15 entries on the wire), audio energy data, and the media
strategy answer on whether CSRC changes are reported. -/
structure CsrcCall where
  csrcs : List Nat
  numEnergy : Nat
  energies : List Nat
  shouldReport : Bool

/-- Run a sequence of CheckCSRC invocations, collecting every emitted
OnIncomingCSRCChanged callback in order. -/
def runCsrcCalls (s : RTPReceiverState) (calls : List CsrcCall) :
    RTPReceiverState × List Event :=
  match calls with
  | [] => (s, [])
  | c :: rest =>
    let r := CheckCSRC s c.csrcs c.numEnergy c.energies c.shouldReport
    let r2 := runCsrcCalls r.1 rest
    (r2.1, r.2 ++ r2.2)

/-- All CSRC callbacks of a receiver lifetime: those emitted while packets
arrive followed by the removal callbacks of the destructor. -/
def csrcLifetimeEvents (s : RTPReceiverState) (calls : List CsrcCall) :
    List Event :=
  (runCsrcCalls s calls).2 ++ DestructorEvents (runCsrcCalls s calls).1

/-- A non-zero CSRC that is currently tracked, or gets an addition
callback at some later call, receives a removal callback at or before
destruction. -/
lemma csrc_add_matched_aux (calls : List CsrcCall) :
    ∀ (s : RTPReceiverState) (x : Nat), x ≠ 0 →
    (x ∈ s.current_remote_csrc ∨
      Event.onIncomingCSRCChanged x true ∈ (runCsrcCalls s calls).2) →
    Event.onIncomingCSRCChanged x false ∈ csrcLifetimeEvents s calls := by
  induction calls with
  | nil =>
      intro s x hx hmem
      rcases hmem with hm | hm
      · exact List.mem_append.mpr (Or.inr (List.mem_map.mpr ⟨x, hm, rfl⟩))
      · simp [runCsrcCalls] at hm
  | cons c rest ih =>
      intro s x hx hmem
      have hstep : csrcLifetimeEvents s (c :: rest) =
          (CheckCSRC s c.csrcs c.numEnergy c.energies c.shouldReport).2 ++
          csrcLifetimeEvents
            (CheckCSRC s c.csrcs c.numEnergy c.energies c.shouldReport).1 rest := by
        simp [csrcLifetimeEvents, runCsrcCalls, List.append_assoc]
      rw [hstep]
      rcases hmem with hm | hm
      · by_cases hin : x ∈ (CheckCSRC s c.csrcs c.numEnergy c.energies
            c.shouldReport).1.current_remote_csrc
        · exact List.mem_append.mpr (Or.inr (ih _ x hx (Or.inl hin)))
        · exact List.mem_append.mpr (Or.inl (checkCSRC_removed_event s c.csrcs
            c.numEnergy c.energies c.shouldReport x hx hm hin))
      · have hm2 : Event.onIncomingCSRCChanged x true ∈
            (CheckCSRC s c.csrcs c.numEnergy c.energies c.shouldReport).2 ++
            (runCsrcCalls (CheckCSRC s c.csrcs c.numEnergy c.energies
              c.shouldReport).1 rest).2 := by
          simpa [runCsrcCalls] using hm
        rcases List.mem_append.mp hm2 with hm1 | hm1
        · have hmem1 := checkCSRC_added_mem s c.csrcs c.numEnergy c.energies
            c.shouldReport x hx hm1
          exact List.mem_append.mpr (Or.inr (ih _ x hx (Or.inl hmem1)))
        · exact List.mem_append.mpr (Or.inr (ih _ x hx (Or.inr hm1)))

/-- C8 counterexample: a lifetime that sees CSRC list [5] and then the
duplicate list [5, 5] emits the addition sentinel (csrc 0, added true)
because the count grew with no per-CSRC difference, but no removal with
csrc 0 is ever emitted, not even by the destructor (which removes 5
twice), contrary to the claim that the sentinel addition is matched. -/
theorem c8_counterexample :
    Event.onIncomingCSRCChanged 0 true ∈
      csrcLifetimeEvents initState
        [{ csrcs := [5], numEnergy := 0, energies := [], shouldReport := true },
         { csrcs := [5, 5], numEnergy := 0, energies := [], shouldReport := true }] ∧
    Event.onIncomingCSRCChanged 0 false ∉
      csrcLifetimeEvents initState
        [{ csrcs := [5], numEnergy := 0, energies := [], shouldReport := true },
         { csrcs := [5, 5], numEnergy := 0, energies := [], shouldReport := true }] := by
  decide

/-- C8 amended: over every receiver lifetime, each OnIncomingCSRCChanged
callback with added = true for a non-zero CSRC is matched by a removal
callback for the same CSRC at or before destruction, and destruction
emits a removal for every currently tracked entry; the duplicate-count
sentinel (csrc = 0) is exempt, as the counterexample shows it can stay
unmatched. -/
theorem c8_csrc_pairing_amended (calls : List CsrcCall)
    (_h15 : ∀ c ∈ calls, c.csrcs.length ≤ 15) :
    (∀ x : Nat, x ≠ 0 →
       Event.onIncomingCSRCChanged x true ∈ csrcLifetimeEvents initState calls →
       Event.onIncomingCSRCChanged x false ∈ csrcLifetimeEvents initState calls) ∧
    (∀ x ∈ (runCsrcCalls initState calls).1.current_remote_csrc,
       Event.onIncomingCSRCChanged x false ∈
         DestructorEvents (runCsrcCalls initState calls).1) := by
  constructor
  · intro x hx hmem
    rcases List.mem_append.mp hmem with hm | hm
    · exact csrc_add_matched_aux calls initState x hx (Or.inr hm)
    · obtain ⟨c, hc, hcEq⟩ := List.mem_map.mp hm
      injection hcEq with h1 h2
      exact absurd h2 (by decide)
  · intro x hxmem
    exact List.mem_map.mpr ⟨x, hxmem, rfl⟩

/-- C8 witness: the amended pairing instantiated on a lifetime with one
header carrying CSRC 7. -/
theorem c8_witness :
    Event.onIncomingCSRCChanged 7 false ∈
      csrcLifetimeEvents initState
        [{ csrcs := [7], numEnergy := 0, energies := [], shouldReport := true }] :=
  (c8_csrc_pairing_amended
    [{ csrcs := [7], numEnergy := 0, energies := [], shouldReport := true }]
    (by decide)).1 7 (by decide) (by decide)

end WebRtc
